import Mathlib

/-!
Shallow embedding of the dual-signal domain-availability engine of
`domain-mcp` (`dist/domain-checker.js`, with the same reconciliation logic
as the TypeScript source shipped next to `cli.ts`).

The network probes (DNS resolution, WHOIS lookup) are modelled by an
environment that maps each queried domain string to the raw outcome the
JavaScript code would observe: either a successful response or a thrown
error value carrying an optional `code` and a `message`.  Everything the
code does with those raw outcomes — classification, regex matching over
WHOIS text, the reconciliation decision table, batching — is embedded as
executable Lean functions.  The inter-batch `sleep` call is modelled by
counting its invocations.
-/

namespace DomainMcp

/-- A thrown JavaScript error value: optional `code` property plus `message`. -/
structure JsError where
  code : Option String
  message : String
  deriving Repr, DecidableEq

/-- Raw outcome of `dnsResolve(domain, "A")` (wrapped in `withTimeout`):
either resolution succeeded, or some error was thrown (a timeout rejection
is an error with `code = none` and `message = "DNS lookup timed out"`). -/
inductive DnsRaw where
  | ok
  | err (e : JsError)
  deriving Repr, DecidableEq

/-- Raw outcome of `lookupAsync(domain)` (wrapped in `withTimeout`):
either the WHOIS text body, or a thrown error. -/
inductive WhoisRaw where
  | ok (text : String)
  | err (e : JsError)
  deriving Repr, DecidableEq

/-- Result record of `checkDns`. -/
structure DnsResult where
  «exists» : Bool
  error : Option String := none
  deriving Repr, DecidableEq

/-- Result record of `checkWhois`. -/
structure WhoisResult where
  available : Bool
  details : Option String := none
  error : Option String := none
  deriving Repr, DecidableEq

/-- The `method` enum of `DomainCheckResult`. -/
inductive Method where
  | dns
  | whois
  | both
  deriving Repr, DecidableEq

/-- The `confidence` enum of `DomainCheckResult`. -/
inductive Confidence where
  | high
  | medium
  | low
  deriving Repr, DecidableEq

/-- The verdict record for one fully-qualified domain. -/
structure DomainCheckResult where
  domain : String
  tld : String
  available : Bool
  method : Method
  confidence : Confidence
  details : Option String := none
  error : Option String := none
  deriving Repr, DecidableEq

/-- Result record of `checkAlternativeTlds`. -/
structure AlternativeTldResult where
  originalDomain : String
  results : List DomainCheckResult
  deriving Repr, DecidableEq

/-- JavaScript truthiness of a `string | undefined` value: `undefined` and
the empty string are falsy. -/
def truthy : Option String → Bool
  | none => false
  | some s => s != ""

/-- The environment a check runs against: what the DNS resolver and the
WHOIS service return for each queried domain string. -/
structure Env where
  dns : String → DnsRaw
  whois : String → WhoisRaw

/-! ### Character classes of the JavaScript regexes -/

/-- The character class `\s` of JavaScript regular expressions
(ECMAScript WhiteSpace plus LineTerminator), also the set removed by
`String.prototype.trim`. -/
def jsWs (c : Char) : Bool :=
  let n := c.toNat
  n == 9 || n == 10 || n == 11 || n == 12 || n == 13 || n == 32 ||
  n == 0xa0 || n == 0x1680 || (0x2000 ≤ n && n ≤ 0x200a) ||
  n == 0x2028 || n == 0x2029 || n == 0x202f || n == 0x205f ||
  n == 0x3000 || n == 0xfeff

/-- JavaScript regex line terminators: the characters `.` does not match
and the positions `^`/`$` anchor to under the `m` flag. -/
def jsLineTerm (c : Char) : Bool :=
  let n := c.toNat
  n == 10 || n == 13 || n == 0x2028 || n == 0x2029

/-! ### The WHOIS pattern matcher

The WHOIS classifier applies regexes of only four shapes: a plain
case-insensitive literal, `lit\s*lit` (the `status:` patterns),
`lit\s*.+` (the `domain name:` pattern), and the line-anchored
`/^% no match$/im`.  Matching is embedded directly: each shape gets an
acceptance function with exactly the backtracking semantics of the
JavaScript engine on these shapes. -/

/-- Match a case-insensitive literal (given as lowercase characters) at the
head of `cs`; on success return the remaining characters. -/
def litHere : List Char → List Char → Option (List Char)
  | [], cs => some cs
  | _ :: _, [] => none
  | p :: ps, c :: cs => if c.toLower = p then litHere ps cs else none

/-- Accept `\s*lit` at the head of `cs` (backtracking: either the literal
matches right here, or one whitespace character is consumed and we retry). -/
def wsThenLit (lit : List Char) : List Char → Bool
  | [] => (litHere lit []).isSome
  | c :: cs => (litHere lit (c :: cs)).isSome || (jsWs c && wsThenLit lit cs)

/-- Accept `\s*.+` at the head of `cs` (without the `s` flag, `.` matches
any character except a line terminator). -/
def wsThenAny : List Char → Bool
  | [] => false
  | c :: cs => !jsLineTerm c || (jsWs c && wsThenAny cs)

/-- Does `f` accept at some position of `cs` (the unanchored scan a
JavaScript regex performs over the subject)? -/
def scanHits (f : List Char → Bool) : List Char → Bool
  | [] => f []
  | c :: cs => f (c :: cs) || scanHits f cs

/-- Does `f` accept at some start-of-line position of `cs`?  With the `m`
flag, `^` matches at the start of the subject and right after every line
terminator. -/
def lineStartScan (f : List Char → Bool) : Bool → List Char → Bool
  | atBol, [] => atBol && f []
  | atBol, c :: cs => (atBol && f (c :: cs)) || lineStartScan f (jsLineTerm c) cs

/-- The four regex shapes used by the WHOIS classifier. -/
inductive RegexPat where
  | ciLit (s : String)
  | ciLitWsLit (s t : String)
  | ciLitWsAny (s : String)
  | ciLineLit (s : String)
  deriving Repr, DecidableEq

/-- `pattern.test(text)` for the four shapes. -/
def testPat (p : RegexPat) (text : String) : Bool :=
  match p with
  | .ciLit s => scanHits (fun cs => (litHere s.toList cs).isSome) text.toList
  | .ciLitWsLit s t =>
      scanHits
        (fun cs =>
          match litHere s.toList cs with
          | some rest => wsThenLit t.toList rest
          | none => false)
        text.toList
  | .ciLitWsAny s =>
      scanHits
        (fun cs =>
          match litHere s.toList cs with
          | some rest => wsThenAny rest
          | none => false)
        text.toList
  | .ciLineLit s =>
      lineStartScan
        (fun cs =>
          match litHere s.toList cs with
          | some rest =>
            match rest with
            | [] => true
            | c :: _ => jsLineTerm c
          | none => false)
        true text.toList

/-- The `availablePatterns` array of `checkWhois`, in source order. -/
def availablePatterns : List RegexPat :=
  [ .ciLit "no match",
    .ciLit "not found",
    .ciLit "no data found",
    .ciLit "no entries found",
    .ciLitWsLit "status:" "free",
    .ciLitWsLit "status:" "available",
    .ciLit "domain not found",
    .ciLit "no object found",
    .ciLit "nothing found",
    .ciLineLit "% no match" ]

/-- The `takenPatterns` array of `checkWhois`, in source order. -/
def takenPatterns : List RegexPat :=
  [ .ciLitWsAny "domain name:",
    .ciLit "registrar:",
    .ciLit "creation date:",
    .ciLit "registered on:",
    .ciLitWsLit "status:" "active",
    .ciLitWsLit "status:" "ok",
    .ciLit "name server:",
    .ciLit "registrant:" ]

/-! ### The two probes -/

/-- `checkDns`: classify the raw DNS outcome.  `ENOTFOUND` and `ENODATA`
are the clean negatives; a timeout rejection is recorded as
`error = "timeout"`; any other thrown error is recorded verbatim. -/
def checkDns (raw : DnsRaw) : DnsResult :=
  match raw with
  | .ok => { «exists» := true }
  | .err e =>
    if e.code = some "ENOTFOUND" ∨ e.code = some "ENODATA" then
      { «exists» := false }
    else if e.message = "DNS lookup timed out" then
      { «exists» := false, error := some "timeout" }
    else
      { «exists» := false, error := some e.message }

/-- `checkWhois`: classify a raw WHOIS outcome by testing the two pattern
arrays against the returned text. -/
def checkWhois (raw : WhoisRaw) : WhoisResult :=
  match raw with
  | .err e => { available := false, error := some e.message }
  | .ok whoisData =>
    let isAvailable := availablePatterns.any (fun p => testPat p whoisData)
    let isTaken := takenPatterns.any (fun p => testPat p whoisData)
    if isAvailable && !isTaken then
      { available := true, details := some "WHOIS shows domain is not registered" }
    else if isTaken then
      { available := false, details := some "WHOIS shows domain is registered" }
    else
      { available := false, details := some "WHOIS result ambiguous, assuming taken" }

/-! ### Domain parsing -/

/-- `domain.split(".")` with a one-character separator, keeping empty
parts, as in JavaScript. -/
def splitOnDot : List Char → List (List Char)
  | [] => [[]]
  | c :: cs =>
    match splitOnDot cs with
    | [] => [[]]
    | p :: ps => if c = '.' then [] :: p :: ps else (c :: p) :: ps

/-- `String.prototype.trim`: drop leading and trailing `\s` characters. -/
def jsTrim (cs : List Char) : List Char :=
  ((cs.dropWhile jsWs).reverse.dropWhile jsWs).reverse

/-- `domain.toLowerCase().trim()` as a character list. -/
def normalizeChars (domain : String) : List Char :=
  jsTrim (domain.toList.map Char.toLower)

/-- `parseDomain`: lowercase, trim, split on `.`; fail when fewer than two
parts; otherwise the TLD is the last part and the name is the rest joined
back with `.`. -/
def parseDomain (domain : String) : Except String (String × String) :=
  let parts := (splitOnDot (normalizeChars domain)).map (fun l => String.mk l)
  match parts with
  | p1 :: p2 :: rest =>
    Except.ok
      (String.intercalate "." ((p1 :: p2 :: rest).dropLast),
       (p1 :: p2 :: rest).getLast (by simp))
  | _ =>
    Except.error ("Invalid domain format: " ++ domain ++ ". Expected format: name.tld")

/-! ### The reconciliation engine -/

/-- The combination logic of `checkDomain` after both probes settled
(lines 170–240 of `dist/domain-checker.js`), verbatim: the both-failed
early return, the four-way both-succeeded cascade with its final
fallback, and the single-probe branches. -/
def combineResults (fullDomain tld : String)
    (dnsResult : DnsResult) (whoisResult : WhoisResult) : DomainCheckResult :=
  if truthy dnsResult.error && truthy whoisResult.error then
    { domain := fullDomain, tld := tld, available := false, method := .both,
      confidence := .low,
      details := some "Both DNS and WHOIS checks failed",
      error := some ("DNS: " ++ dnsResult.error.getD "" ++ ", WHOIS: " ++
        whoisResult.error.getD "") }
  else if !truthy dnsResult.error && !truthy whoisResult.error then
    if !dnsResult.«exists» && whoisResult.available then
      { domain := fullDomain, tld := tld, available := true, method := .both,
        confidence := .high,
        details := some "No DNS records and WHOIS shows available" }
    else if dnsResult.«exists» && !whoisResult.available then
      { domain := fullDomain, tld := tld, available := false, method := .both,
        confidence := .high,
        details := some "DNS records exist and WHOIS shows registered" }
    else if dnsResult.«exists» then
      { domain := fullDomain, tld := tld, available := false, method := .both,
        confidence := .high,
        details := some "DNS records exist (domain is active)" }
    else if !whoisResult.available then
      { domain := fullDomain, tld := tld, available := false, method := .both,
        confidence := .medium,
        details := some "No DNS but WHOIS shows registered (domain may be parked)" }
    else
      { domain := fullDomain, tld := tld, available := true, method := .both,
        confidence := .medium,
        details := whoisResult.details }
  else if truthy dnsResult.error then
    { domain := fullDomain, tld := tld, available := whoisResult.available,
      method := .whois, confidence := .medium,
      details := whoisResult.details }
  else
    { domain := fullDomain, tld := tld, available := !dnsResult.«exists»,
      method := .dns,
      confidence := if dnsResult.«exists» then .high else .medium,
      details := some (if dnsResult.«exists» then "DNS records exist"
        else "No DNS records found (may still be registered but inactive)") }

/-- `checkDomain`: parse, run both probes on `name.tld`, combine. -/
def checkDomain (env : Env) (domain : String) : Except String DomainCheckResult :=
  match parseDomain domain with
  | .error e => .error e
  | .ok (name, tld) =>
    let fullDomain := name ++ "." ++ tld
    let dnsResult := checkDns (env.dns fullDomain)
    let whoisResult := checkWhois (env.whois fullDomain)
    .ok (combineResults fullDomain tld dnsResult whoisResult)

/-! ### The batch orchestrator -/

/-- Split a list into consecutive windows of `c` elements (the index loop
`for (let i = 0; i < tlds.length; i += concurrency)` with
`tlds.slice(i, i + concurrency)`).  `k` is the room left in the current
window, `acc` the current window reversed. -/
def chunksAux (c : Nat) : Nat → List String → List String → List (List String)
  | _, acc, [] => [acc.reverse]
  | k, acc, x :: xs =>
    if k ≤ 1 then
      match xs with
      | [] => [acc.reverse ++ [x]]
      | _ :: _ => (acc.reverse ++ [x]) :: chunksAux c c [] xs
    else chunksAux c (k - 1) (x :: acc) xs

/-- The batch windows of the orchestrator loop. -/
def chunks (c : Nat) (l : List String) : List (List String) :=
  match l with
  | [] => []
  | x :: xs => chunksAux c c [] (x :: xs)

/-- `Promise.all` over already-settled outcomes: the list of values, or
the first rejection. -/
def collectResults : List (Except String DomainCheckResult) →
    Except String (List DomainCheckResult)
  | [] => Except.ok []
  | x :: xs =>
    match x with
    | Except.error e => Except.error e
    | Except.ok r =>
      match collectResults xs with
      | Except.error e => Except.error e
      | Except.ok rs => Except.ok (r :: rs)

/-- Run the windows sequentially: per window, check every `name.tld`
concurrently and append the results; after every window except the last,
`sleep(batchDelay)` — modelled by the returned counter of sleep calls. -/
def runWindows (env : Env) (name : String) :
    List (List String) → Except String (List DomainCheckResult × Nat)
  | [] => Except.ok ([], 0)
  | w :: rest =>
    match collectResults (w.map (fun tld => checkDomain env (name ++ "." ++ tld))) with
    | Except.error e => Except.error e
    | Except.ok rs =>
      match rest with
      | [] => Except.ok (rs, 0)
      | r1 :: rs1 =>
        match runWindows env name (r1 :: rs1) with
        | Except.error e => Except.error e
        | Except.ok (rs2, k) => Except.ok (rs ++ rs2, k + 1)

/-- `checkAlternativeTlds`: take the bare name (parsing off a TLD when the
input already contains a dot), then run the TLD list in windows of
`concurrency` (default `DEFAULT_CONCURRENCY = 3`).  The second component
of the result counts the inter-window `sleep(batchDelay)` calls. -/
def checkAlternativeTlds (env : Env) (domainName : String) (tlds : List String)
    (concurrency : Nat := 3) : Except String (AlternativeTldResult × Nat) :=
  match
    (if domainName.toList.contains '.' then (parseDomain domainName).map (fun p => p.1)
     else Except.ok domainName) with
  | Except.error e => Except.error e
  | Except.ok name =>
    match runWindows env name (chunks concurrency tlds) with
    | Except.error e => Except.error e
    | Except.ok (results, sleeps) =>
      Except.ok ({ originalDomain := name, results := results }, sleeps)

/-! ### TLD category lists -/

/-- `POPULAR_TLDS`. -/
def POPULAR_TLDS : List String :=
  ["com", "net", "org", "io", "co", "dev", "app", "ai", "xyz", "me",
   "info", "biz", "tech", "online", "site", "cloud"]

/-- `COUNTRY_TLDS`. -/
def COUNTRY_TLDS : List String :=
  ["uk", "de", "fr", "nl", "es", "it", "pl", "ru", "jp", "cn",
   "au", "ca", "us", "in", "br"]

/-- `TECH_TLDS`. -/
def TECH_TLDS : List String :=
  ["io", "dev", "app", "ai", "tech", "cloud", "software", "systems",
   "digital", "code"]

/-- `new Set(...)` iteration order: keep the first occurrence of each
element, drop later duplicates. -/
def setDedup : List String → List String → List String
  | _, [] => []
  | seen, x :: xs =>
    if x ∈ seen then setDedup seen xs else x :: setDedup (x :: seen) xs

/-- The `purpose` parameter of `getSuggestedTlds`. -/
inductive Purpose where
  | general
  | tech
  | country
  | all
  deriving Repr, DecidableEq

/-- `getSuggestedTlds`: the curated list per purpose; `all` is
`[...new Set([...POPULAR_TLDS, ...TECH_TLDS, ...COUNTRY_TLDS])]`. -/
def getSuggestedTlds : Purpose → List String
  | .tech => TECH_TLDS
  | .country => COUNTRY_TLDS
  | .all => setDedup [] (POPULAR_TLDS ++ TECH_TLDS ++ COUNTRY_TLDS)
  | .general => POPULAR_TLDS

/-! ### Concrete environments and results used as witnesses -/

/-- Environment where DNS always resolves and WHOIS returns an empty body. -/
def envOk : Env := ⟨fun _ => .ok, fun _ => .ok ""⟩

/-- Environment where DNS resolves (record exists) while WHOIS text says the
domain is available. -/
def envWhoisAvail : Env := ⟨fun _ => .ok, fun _ => .ok "no match"⟩

/-- Environment where both probes throw. -/
def envBothFail : Env :=
  ⟨fun _ => .err ⟨none, "dns boom"⟩, fun _ => .err ⟨none, "whois boom"⟩⟩

/-- Environment where only the DNS probe throws. -/
def envDnsFail : Env :=
  ⟨fun _ => .err ⟨none, "dns boom"⟩, fun _ => .ok "no match"⟩

/-- Environment where DNS cleanly reports no record and WHOIS says available. -/
def envNotFound : Env :=
  ⟨fun _ => .err ⟨some "ENOTFOUND", "getaddrinfo ENOTFOUND"⟩, fun _ => .ok "no match"⟩

/-- Placeholder record for impossible `Except.error` fallbacks below. -/
def fallbackResult : DomainCheckResult :=
  { domain := "", tld := "", available := false, method := .dns, confidence := .low }

/-- The verdict `checkDomain` computes against `envWhoisAvail`. -/
def rWhoisAvail : DomainCheckResult :=
  match checkDomain envWhoisAvail "example.com" with
  | .ok r => r
  | .error _ => fallbackResult

/-- The verdict `checkDomain` computes against `envBothFail`. -/
def rBothFail : DomainCheckResult :=
  match checkDomain envBothFail "a.b" with
  | .ok r => r
  | .error _ => fallbackResult

/-- The verdict `checkDomain` computes against `envDnsFail`. -/
def rDnsFail : DomainCheckResult :=
  match checkDomain envDnsFail "a.b" with
  | .ok r => r
  | .error _ => fallbackResult

/-- The verdict `checkDomain` computes against `envNotFound`. -/
def rNotFound : DomainCheckResult :=
  match checkDomain envNotFound "a.b" with
  | .ok r => r
  | .error _ => fallbackResult

/-- The verdict `checkDomain` computes against `envOk`. -/
def rOk : DomainCheckResult :=
  match checkDomain envOk "a.b" with
  | .ok r => r
  | .error _ => fallbackResult

/-- The batch result for three TLDs against `envOk`. -/
def altThree : AlternativeTldResult × Nat :=
  match checkAlternativeTlds envOk "foo" ["com", "net", "org"] 3 with
  | .ok p => p
  | .error _ => ({ originalDomain := "", results := [] }, 0)

/-- The batch result for seven TLDs with window 3 against `envOk`. -/
def altSeven : AlternativeTldResult × Nat :=
  match checkAlternativeTlds envOk "foo" ["c1", "c2", "c3", "c4", "c5", "c6", "c7"] 3 with
  | .ok p => p
  | .error _ => ({ originalDomain := "", results := [] }, 0)

/-! ## Theorems -/

/-- Round trip of `Char.ofNat` on valid code points. -/
theorem charOfNat_toNat {n : Nat} (h : n.isValidChar) : (Char.ofNat n).toNat = n := by
  simp [Char.ofNat, dif_pos h, Char.ofNatAux, Char.toNat, UInt32.toNat,
    BitVec.toNat_ofNatLt]

/-- Lowercasing never produces a dot: only `.` lowercases to `.`. -/
theorem toLower_eq_dot {c : Char} (h : Char.toLower c = '.') : c = '.' := by
  unfold Char.toLower at h
  simp only [] at h
  by_cases hc : c.toNat ≥ 65 ∧ c.toNat ≤ 90
  · rw [if_pos hc] at h
    exfalso
    have hv : (c.toNat + 32).isValidChar := by
      unfold Nat.isValidChar
      left
      omega
    have h2 := congrArg Char.toNat h
    rw [charOfNat_toNat hv] at h2
    have h4 : ('.' : Char).toNat = 46 := by decide
    omega
  · rw [if_neg hc] at h
    exact h

/-- `dropWhile` keeps a sublist, so membership transfers back. -/
theorem mem_of_mem_dropWhile {p : Char → Bool} {a : Char} :
    ∀ {cs : List Char}, a ∈ cs.dropWhile p → a ∈ cs := by
  intro cs
  induction cs with
  | nil => intro h; exact h
  | cons c cs ih =>
    intro h
    rw [List.dropWhile_cons] at h
    by_cases hp : p c = true
    · rw [if_pos hp] at h
      exact List.mem_cons_of_mem c (ih h)
    · rw [if_neg hp] at h
      exact h

/-- Trimming only removes characters. -/
theorem mem_of_mem_jsTrim {a : Char} {cs : List Char} (h : a ∈ jsTrim cs) :
    a ∈ cs := by
  unfold jsTrim at h
  rw [List.mem_reverse] at h
  have h2 := mem_of_mem_dropWhile h
  rw [List.mem_reverse] at h2
  exact mem_of_mem_dropWhile h2

/-- The normalized character list of a dotless input is dotless. -/
theorem normalizeChars_no_dot {domain : String} (h : '.' ∉ domain.toList) :
    '.' ∉ normalizeChars domain := by
  intro hmem
  have h2 := mem_of_mem_jsTrim hmem
  rw [List.mem_map] at h2
  obtain ⟨c, hc, hlow⟩ := h2
  exact h (toLower_eq_dot hlow ▸ hc)

/-- Splitting a dotless character list yields a single part. -/
theorem splitOnDot_no_dot : ∀ {cs : List Char}, '.' ∉ cs → splitOnDot cs = [cs] := by
  intro cs
  induction cs with
  | nil => intro _; rfl
  | cons c cs ih =>
    intro h
    have hc : ¬c = '.' := fun hcd => h (hcd ▸ List.mem_cons_self c cs)
    have hcs : '.' ∉ cs := fun hm => h (List.mem_cons_of_mem c hm)
    unfold splitOnDot
    rw [ih hcs]
    simp [hc]

/-- `parseDomain` rejects inputs with no dot, with the input-format message. -/
theorem parseDomain_no_dot {domain : String} (h : '.' ∉ domain.toList) :
    parseDomain domain =
      Except.error ("Invalid domain format: " ++ domain ++ ". Expected format: name.tld") := by
  unfold parseDomain
  rw [splitOnDot_no_dot (normalizeChars_no_dot h)]
  rfl

/-- C8: for every input string containing no `.` separator, `checkDomain`
fails with the input-format error instead of returning a result. -/
theorem checkDomain_no_dot_fails (env : Env) (domain : String)
    (h : '.' ∉ domain.toList) :
    checkDomain env domain =
      Except.error ("Invalid domain format: " ++ domain ++ ". Expected format: name.tld") := by
  unfold checkDomain
  rw [parseDomain_no_dot h]

/-- Witness for C8 at the concrete input `"x"`. -/
theorem checkDomain_no_dot_fails_witness :
    checkDomain envOk "x" =
      Except.error "Invalid domain format: x. Expected format: name.tld" :=
  checkDomain_no_dot_fails envOk "x" (by decide)

/-- C2: the WHOIS classifier decision policy — available-pattern match with
no taken-pattern match classifies available; any taken-pattern match
classifies taken; no match at all classifies taken with ambiguous details. -/
theorem checkWhois_decision_policy (text : String) :
    (availablePatterns.any (fun p => testPat p text) = true →
      takenPatterns.any (fun p => testPat p text) = false →
      checkWhois (WhoisRaw.ok text) =
        { available := true, details := some "WHOIS shows domain is not registered" }) ∧
    (takenPatterns.any (fun p => testPat p text) = true →
      checkWhois (WhoisRaw.ok text) =
        { available := false, details := some "WHOIS shows domain is registered" }) ∧
    (availablePatterns.any (fun p => testPat p text) = false →
      takenPatterns.any (fun p => testPat p text) = false →
      checkWhois (WhoisRaw.ok text) =
        { available := false, details := some "WHOIS result ambiguous, assuming taken" }) := by
  refine ⟨fun hA hT => ?_, fun hT => ?_, fun hA hT => ?_⟩
  · simp [checkWhois, hA, hT]
  · simp [checkWhois, hT]
  · simp [checkWhois, hA, hT]

/-- Witness for C2 at a text matching both an available-pattern and a
taken-pattern: the taken classification wins. -/
theorem checkWhois_decision_policy_witness :
    checkWhois (WhoisRaw.ok "No match for domain.\nRegistrar: Example Corp") =
      { available := false, details := some "WHOIS shows domain is registered" } :=
  (checkWhois_decision_policy "No match for domain.\nRegistrar: Example Corp").2.1
    (by decide)

/-- C9: the `all` TLD list has no duplicates and contains every element of
the general, tech and country lists. -/
theorem getSuggestedTlds_all_dedup_union :
    (getSuggestedTlds Purpose.all).Nodup ∧
    (∀ x ∈ getSuggestedTlds Purpose.general, x ∈ getSuggestedTlds Purpose.all) ∧
    (∀ x ∈ getSuggestedTlds Purpose.tech, x ∈ getSuggestedTlds Purpose.all) ∧
    (∀ x ∈ getSuggestedTlds Purpose.country, x ∈ getSuggestedTlds Purpose.all) := by
  decide

/-- `checkDns` only reports an existing record on the success path, which
carries no error. -/
theorem checkDns_exists_no_error (raw : DnsRaw)
    (h : (checkDns raw).«exists» = true) : (checkDns raw).error = none := by
  cases raw with
  | ok => rfl
  | err e =>
    by_cases h1 : e.code = some "ENOTFOUND" ∨ e.code = some "ENODATA"
    · simp [checkDns, h1] at h
    · by_cases h2 : e.message = "DNS lookup timed out"
      · simp [checkDns, h1, h2] at h
      · simp [checkDns, h1, h2] at h

/-- A successful `checkDomain` call is the reconciliation of the two probe
classifications on the parsed `name.tld`. -/
theorem checkDomain_ok_elim {env : Env} {domain name tld : String}
    {r : DomainCheckResult}
    (hp : parseDomain domain = Except.ok (name, tld))
    (hok : checkDomain env domain = Except.ok r) :
    r = combineResults (name ++ "." ++ tld) tld
          (checkDns (env.dns (name ++ "." ++ tld)))
          (checkWhois (env.whois (name ++ "." ++ tld))) := by
  unfold checkDomain at hok
  rw [hp] at hok
  simp at hok
  exact hok.symm

/-- When DNS affirmatively found a record, the reconciliation is always
unavailable with high confidence, whatever the WHOIS classification. -/
theorem combine_dns_exists (fd tld : String) (d : DnsResult) (w : WhoisResult)
    (hd : d.«exists» = true) (hne : d.error = none) :
    (combineResults fd tld d w).available = false ∧
    (combineResults fd tld d w).confidence = Confidence.high := by
  unfold combineResults
  cases hw : truthy w.error <;> cases ha : w.available <;>
    simp [truthy, hne, hd, hw, ha]

/-- C1: in every `checkDomain` call where the DNS probe reports a record
exists, the result has `available = false`, and with `confidence = high`,
regardless of the WHOIS outcome. -/
theorem checkDomain_dns_exists_unavailable (env : Env)
    (domain name tld : String) (r : DomainCheckResult)
    (hp : parseDomain domain = Except.ok (name, tld))
    (hd : (checkDns (env.dns (name ++ "." ++ tld))).«exists» = true)
    (hok : checkDomain env domain = Except.ok r) :
    r.available = false ∧ r.confidence = Confidence.high := by
  rw [checkDomain_ok_elim hp hok]
  exact combine_dns_exists _ _ _ _ hd (checkDns_exists_no_error _ hd)

/-- Witness for C1: DNS resolves while WHOIS text reads as available; the
verdict is still taken, with high confidence. -/
theorem checkDomain_dns_exists_unavailable_witness :
    rWhoisAvail.available = false ∧ rWhoisAvail.confidence = Confidence.high :=
  checkDomain_dns_exists_unavailable envWhoisAvail "example.com" "example" "com"
    rWhoisAvail rfl rfl rfl

/-- C3: when both probes error, `checkDomain` still returns a structured
result: unavailable, low confidence, method `both`, and an error string
composed from both sub-messages. -/
theorem checkDomain_both_errors_low (env : Env) (domain name tld : String)
    (hp : parseDomain domain = Except.ok (name, tld))
    (hd : truthy (checkDns (env.dns (name ++ "." ++ tld))).error = true)
    (hw : truthy (checkWhois (env.whois (name ++ "." ++ tld))).error = true) :
    checkDomain env domain = Except.ok
      { domain := name ++ "." ++ tld, tld := tld, available := false,
        method := Method.both, confidence := Confidence.low,
        details := some "Both DNS and WHOIS checks failed",
        error := some ("DNS: " ++
          (checkDns (env.dns (name ++ "." ++ tld))).error.getD "" ++
          ", WHOIS: " ++
          (checkWhois (env.whois (name ++ "." ++ tld))).error.getD "") } := by
  unfold checkDomain
  rw [hp]
  simp [combineResults, hd, hw]

/-- Witness for C3: both probes throw; the composed error message carries
both sub-messages. -/
theorem checkDomain_both_errors_low_witness :
    checkDomain envBothFail "a.b" = Except.ok
      { domain := "a.b", tld := "b", available := false,
        method := Method.both, confidence := Confidence.low,
        details := some "Both DNS and WHOIS checks failed",
        error := some "DNS: dns boom, WHOIS: whois boom" } :=
  checkDomain_both_errors_low envBothFail "a.b" "a" "b" rfl rfl rfl

/-- The reconciliation yields `method = both` either when neither probe
error is truthy or when both are (and then confidence is low). -/
theorem combine_method_both (fd tld : String) (d : DnsResult) (w : WhoisResult)
    (hm : (combineResults fd tld d w).method = Method.both) :
    (truthy d.error = false ∧ truthy w.error = false) ∨
    (truthy d.error = true ∧ truthy w.error = true ∧
      (combineResults fd tld d w).confidence = Confidence.low) := by
  cases hd : truthy d.error <;> cases hw : truthy w.error
  · exact Or.inl ⟨rfl, rfl⟩
  · exfalso
    cases hex : d.«exists» <;> cases hav : w.available <;>
      simp [combineResults, hd, hw, hex, hav] at hm
  · exfalso
    cases hex : d.«exists» <;> cases hav : w.available <;>
      simp [combineResults, hd, hw, hex, hav] at hm
  · refine Or.inr ⟨rfl, rfl, ?_⟩
    simp [combineResults, hd, hw]

/-- C4 counterexample: a `checkDomain` call in which both probes errored
still reports `method = both`, so `method = both` does not imply that the
probes returned without transport error. -/
theorem method_both_despite_probe_error :
    checkDomain envBothFail "a.b" = Except.ok rBothFail ∧
    rBothFail.method = Method.both ∧
    truthy (checkDns (envBothFail.dns "a.b")).error = true ∧
    truthy (checkWhois (envBothFail.whois "a.b")).error = true :=
  ⟨rfl, rfl, rfl, rfl⟩

/-- C4 as amended: `method = both` implies either that neither probe
carried a truthy transport error, or that both did — in which case the
confidence is `low`. -/
theorem checkDomain_method_both_amended (env : Env)
    (domain name tld : String) (r : DomainCheckResult)
    (hp : parseDomain domain = Except.ok (name, tld))
    (hok : checkDomain env domain = Except.ok r)
    (hm : r.method = Method.both) :
    (truthy (checkDns (env.dns (name ++ "." ++ tld))).error = false ∧
      truthy (checkWhois (env.whois (name ++ "." ++ tld))).error = false) ∨
    (truthy (checkDns (env.dns (name ++ "." ++ tld))).error = true ∧
      truthy (checkWhois (env.whois (name ++ "." ++ tld))).error = true ∧
      r.confidence = Confidence.low) := by
  rw [checkDomain_ok_elim hp hok] at hm ⊢
  exact combine_method_both _ _ _ _ hm

/-- Witness for the amended C4 at a call where both probes succeed. -/
theorem checkDomain_method_both_amended_witness :
    (truthy (checkDns (envOk.dns ("a" ++ "." ++ "b"))).error = false ∧
      truthy (checkWhois (envOk.whois ("a" ++ "." ++ "b"))).error = false) ∨
    (truthy (checkDns (envOk.dns ("a" ++ "." ++ "b"))).error = true ∧
      truthy (checkWhois (envOk.whois ("a" ++ "." ++ "b"))).error = true ∧
      rOk.confidence = Confidence.low) :=
  checkDomain_method_both_amended envOk "a.b" "a" "b" rOk rfl rfl rfl

/-- The reconciliation records an error exactly when both probe errors are
truthy. -/
theorem combine_error_iff (fd tld : String) (d : DnsResult) (w : WhoisResult) :
    (combineResults fd tld d w).error.isSome =
      (truthy d.error && truthy w.error) := by
  cases hd : truthy d.error <;> cases hw : truthy w.error <;>
    cases hex : d.«exists» <;> cases hav : w.available <;>
    simp [combineResults, hd, hw, hex, hav]

/-- C6 counterexample: a call where exactly one probe (DNS) failed returns
a result with no error field at all, so the error field is not present
whenever at least one probe failed. -/
theorem one_probe_error_not_recorded :
    checkDomain envDnsFail "a.b" = Except.ok rDnsFail ∧
    truthy (checkDns (envDnsFail.dns "a.b")).error = true ∧
    rDnsFail.error = none :=
  ⟨rfl, rfl, rfl⟩

/-- C6 as amended: the error field is present if and only if both probes
failed (and then it is the composed message; a single probe failure is not
recorded in the result). -/
theorem checkDomain_error_iff_both_failed (env : Env)
    (domain name tld : String) (r : DomainCheckResult)
    (hp : parseDomain domain = Except.ok (name, tld))
    (hok : checkDomain env domain = Except.ok r) :
    r.error.isSome =
      (truthy (checkDns (env.dns (name ++ "." ++ tld))).error &&
       truthy (checkWhois (env.whois (name ++ "." ++ tld))).error) := by
  rw [checkDomain_ok_elim hp hok]
  exact combine_error_iff _ _ _ _

/-- Witness for the amended C6 at a call where both probes fail. -/
theorem checkDomain_error_iff_both_failed_witness :
    rBothFail.error.isSome =
      (truthy (checkDns (envBothFail.dns ("a" ++ "." ++ "b"))).error &&
       truthy (checkWhois (envBothFail.whois ("a" ++ "." ++ "b"))).error) :=
  checkDomain_error_iff_both_failed envBothFail "a.b" "a" "b" rBothFail rfl rfl

/-- When the reconciliation reports `method = both` and availability, the
confidence is high: the medium-confidence both-succeeded fallback can
never fire with `available = true`. -/
theorem combine_both_available_high (fd tld : String) (d : DnsResult)
    (w : WhoisResult)
    (hm : (combineResults fd tld d w).method = Method.both)
    (ha : (combineResults fd tld d w).available = true) :
    (combineResults fd tld d w).confidence = Confidence.high := by
  cases hd : truthy d.error <;> cases hw : truthy w.error <;>
    cases hex : d.«exists» <;> cases hav : w.available <;>
    simp_all [combineResults]

/-- C10: every `checkDomain` result with `method = both` and
`available = true` has `confidence = high`; the both-succeeded fallback
branch that would yield medium confidence is unreachable. -/
theorem checkDomain_both_available_high (env : Env)
    (domain name tld : String) (r : DomainCheckResult)
    (hp : parseDomain domain = Except.ok (name, tld))
    (hok : checkDomain env domain = Except.ok r)
    (hm : r.method = Method.both)
    (ha : r.available = true) :
    r.confidence = Confidence.high := by
  rw [checkDomain_ok_elim hp hok] at hm ha ⊢
  exact combine_both_available_high _ _ _ _ hm ha

/-- Witness for C10: clean DNS negative plus WHOIS available gives an
available verdict from both probes, with high confidence. -/
theorem checkDomain_both_available_high_witness :
    rNotFound.confidence = Confidence.high :=
  checkDomain_both_available_high envNotFound "a.b" "a" "b" rNotFound
    rfl rfl rfl rfl

/-- Flattening the batch windows restores the input list. -/
theorem chunksAux_flatten (c : Nat) :
    ∀ (l : List String) (k : Nat) (acc : List String),
      (chunksAux c k acc l).flatten = acc.reverse ++ l := by
  intro l
  induction l with
  | nil => intro k acc; simp [chunksAux]
  | cons x xs ih =>
    intro k acc
    unfold chunksAux
    by_cases hk : k ≤ 1
    · rw [if_pos hk]
      cases xs with
      | nil => simp
      | cons y ys => simp [ih]
    · rw [if_neg hk, ih]
      simp

/-- The batch windows partition the TLD list in order. -/
theorem chunks_flatten (c : Nat) (l : List String) :
    (chunks c l).flatten = l := by
  cases l with
  | nil => rfl
  | cons x xs => simp [chunks, chunksAux_flatten]

/-- A successful `Promise.all` over the per-TLD checks relates each TLD to
its own verdict, in order. -/
theorem collectResults_forall2 (env : Env) (name : String) :
    ∀ (ts : List String) (rs : List DomainCheckResult),
      collectResults (ts.map (fun tld => checkDomain env (name ++ "." ++ tld))) =
        Except.ok rs →
      List.Forall₂
        (fun tld r => checkDomain env (name ++ "." ++ tld) = Except.ok r) ts rs := by
  intro ts
  induction ts with
  | nil =>
    intro rs h
    simp [collectResults] at h
    rw [h]
    exact List.Forall₂.nil
  | cons t ts ih =>
    intro rs h
    simp only [List.map] at h
    unfold collectResults at h
    cases hd : checkDomain env (name ++ "." ++ t) with
    | error e => rw [hd] at h; cases h
    | ok r =>
      rw [hd] at h
      cases hrest : collectResults (ts.map (fun tld => checkDomain env (name ++ "." ++ tld))) with
      | error e => rw [hrest] at h; cases h
      | ok rs2 =>
        rw [hrest] at h
        simp at h
        subst h
        exact List.Forall₂.cons hd (ih rs2 hrest)

/-- A successful window run relates the flattened windows to the collected
verdicts, in order. -/
theorem runWindows_forall2 (env : Env) (name : String) :
    ∀ (ws : List (List String)) (rs : List DomainCheckResult) (k : Nat),
      runWindows env name ws = Except.ok (rs, k) →
      List.Forall₂
        (fun tld r => checkDomain env (name ++ "." ++ tld) = Except.ok r)
        ws.flatten rs := by
  intro ws
  induction ws with
  | nil =>
    intro rs k h
    simp [runWindows] at h
    obtain ⟨h1, -⟩ := h
    subst h1
    exact List.Forall₂.nil
  | cons w rest ih =>
    intro rs k h
    unfold runWindows at h
    cases hc : collectResults (w.map (fun tld => checkDomain env (name ++ "." ++ tld))) with
    | error e => rw [hc] at h; cases h
    | ok rs1 =>
      rw [hc] at h
      cases rest with
      | nil =>
        simp at h
        obtain ⟨h1, -⟩ := h
        subst h1
        simpa using collectResults_forall2 env name w rs1 hc
      | cons w2 rest2 =>
        cases hr : runWindows env name (w2 :: rest2) with
        | error e => simp [hr] at h
        | ok p =>
          obtain ⟨rs2, k2⟩ := p
          simp [hr] at h
          obtain ⟨h1, -⟩ := h
          subst h1
          simpa using List.rel_append (collectResults_forall2 env name w rs1 hc)
            (ih rs2 k2 hr)

/-- The number of sleeps of a successful window run is one less than the
number of windows: one after every window except the last. -/
theorem runWindows_count (env : Env) (name : String) :
    ∀ (ws : List (List String)) (rs : List DomainCheckResult) (k : Nat),
      runWindows env name ws = Except.ok (rs, k) → k = ws.length - 1 := by
  intro ws
  induction ws with
  | nil =>
    intro rs k h
    simp [runWindows] at h
    obtain ⟨-, h2⟩ := h
    simp [← h2]
  | cons w rest ih =>
    intro rs k h
    unfold runWindows at h
    cases hc : collectResults (w.map (fun tld => checkDomain env (name ++ "." ++ tld))) with
    | error e => rw [hc] at h; cases h
    | ok rs1 =>
      rw [hc] at h
      cases rest with
      | nil =>
        simp at h
        obtain ⟨-, h2⟩ := h
        simp
        omega
      | cons w2 rest2 =>
        cases hr : runWindows env name (w2 :: rest2) with
        | error e => simp [hr] at h
        | ok p =>
          obtain ⟨rs2, k2⟩ := p
          simp [hr] at h
          obtain ⟨-, h2⟩ := h
          have h3 := ih rs2 k2 hr
          simp at h3
          simp
          omega

/-- A successful `checkAlternativeTlds` call is a successful window run on
the chunked TLD list, under the extracted base name. -/
theorem checkAlternativeTlds_ok_elim (env : Env) (dn : String)
    (tlds : List String) (c : Nat) (res : AlternativeTldResult) (k : Nat)
    (hok : checkAlternativeTlds env dn tlds c = Except.ok (res, k)) :
    runWindows env res.originalDomain (chunks c tlds) =
      Except.ok (res.results, k) := by
  unfold checkAlternativeTlds at hok
  cases hname : (if dn.toList.contains '.' then (parseDomain dn).map (fun p => p.1)
      else Except.ok dn) with
  | error e => rw [hname] at hok; cases hok
  | ok name =>
    rw [hname] at hok
    cases hr : runWindows env name (chunks c tlds) with
    | error e => simp [hr] at hok
    | ok p =>
      obtain ⟨results, sleeps⟩ := p
      simp [hr] at hok
      obtain ⟨h1, h2⟩ := hok
      subst h2
      rw [← h1]
      exact hr

/-- The sleep counter of a successful batch call is the window count minus
one. -/
theorem checkAlternativeTlds_sleeps (env : Env) (dn : String)
    (tlds : List String) (c : Nat) (res : AlternativeTldResult) (k : Nat)
    (hok : checkAlternativeTlds env dn tlds c = Except.ok (res, k)) :
    k = (chunks c tlds).length - 1 :=
  runWindows_count env res.originalDomain (chunks c tlds) res.results k
    (checkAlternativeTlds_ok_elim env dn tlds c res k hok)

/-- C5: with 7 TLDs and window 3, the loop runs windows of sizes 3, 3, 1
and the pacing sleep fires exactly twice — after the first and second
windows, never after the last. -/
theorem checkAlternativeTlds_batching (env : Env) (name : String)
    (tlds : List String) (res : AlternativeTldResult) (k : Nat)
    (hlen : tlds.length = 7)
    (hok : checkAlternativeTlds env name tlds 3 = Except.ok (res, k)) :
    (chunks 3 tlds).map List.length = [3, 3, 1] ∧ k = 2 := by
  obtain ⟨t1, t2, t3, t4, t5, t6, t7, rfl⟩ :
      ∃ a b c d e f g, tlds = [a, b, c, d, e, f, g] := by
    rcases tlds with _ | ⟨a, _ | ⟨b, _ | ⟨c, _ | ⟨d, _ | ⟨e, _ | ⟨f, _ | ⟨g, _ | ⟨h, t⟩⟩⟩⟩⟩⟩⟩⟩
    · simp at hlen
    · simp at hlen
    · simp at hlen
    · simp at hlen
    · simp at hlen
    · simp at hlen
    · simp at hlen
    · exact ⟨a, b, c, d, e, f, g, rfl⟩
    · simp at hlen
  have hsz : (chunks 3 [t1, t2, t3, t4, t5, t6, t7]).map List.length = [3, 3, 1] := by
    simp [chunks, chunksAux]
  refine ⟨hsz, ?_⟩
  have hs := checkAlternativeTlds_sleeps env name _ 3 res k hok
  have hlen3 : (chunks 3 [t1, t2, t3, t4, t5, t6, t7]).length = 3 := by
    have := congrArg List.length hsz
    simpa using this
  omega

/-- Witness for C5 at seven concrete TLDs against `envOk`. -/
theorem checkAlternativeTlds_batching_witness :
    (chunks 3 ["c1", "c2", "c3", "c4", "c5", "c6", "c7"]).map List.length = [3, 3, 1] ∧
    altSeven.2 = 2 :=
  checkAlternativeTlds_batching envOk "foo" ["c1", "c2", "c3", "c4", "c5", "c6", "c7"]
    altSeven.1 altSeven.2 rfl rfl

/-- C7: a successful batch call returns exactly one verdict per requested
TLD, in the requested order — the k-th verdict is the `checkDomain` result
for `name.tld` of the k-th TLD. -/
theorem checkAlternativeTlds_order (env : Env) (domainName : String)
    (tlds : List String) (c : Nat) (res : AlternativeTldResult) (k : Nat)
    (_hc : 0 < c)
    (hok : checkAlternativeTlds env domainName tlds c = Except.ok (res, k)) :
    res.results.length = tlds.length ∧
    List.Forall₂
      (fun tld r => checkDomain env (res.originalDomain ++ "." ++ tld) = Except.ok r)
      tlds res.results := by
  have hr := checkAlternativeTlds_ok_elim env domainName tlds c res k hok
  have h2 := runWindows_forall2 env res.originalDomain (chunks c tlds) res.results k hr
  rw [chunks_flatten] at h2
  exact ⟨h2.length_eq.symm, h2⟩

/-- Witness for C7 at `"foo"` with TLDs `com`, `net`, `org`. -/
theorem checkAlternativeTlds_order_witness :
    altThree.1.results.length = (["com", "net", "org"] : List String).length ∧
    List.Forall₂
      (fun tld r => checkDomain envOk (altThree.1.originalDomain ++ "." ++ tld) = Except.ok r)
      ["com", "net", "org"] altThree.1.results :=
  checkAlternativeTlds_order envOk "foo" ["com", "net", "org"] 3
    altThree.1 altThree.2 (by decide) rfl

end DomainMcp
